import Mathlib

/-!
Verification development for the NDI CAPI tracking client (RPHD_code).

The Python sources are shallowly embedded:
* a `bytearray` that is destructively popped from the front becomes a
  `List Nat` of byte values threaded through a state-with-error monad `PM`;
* a Python exception (`IndexError`, `ValueError`, `TypeError`, `NDError`)
  becomes `PResult.err` carrying the exception name and the buffer contents
  at the moment the exception is raised (so partial consumption is visible);
* machine integers are `Int`/`Nat` with explicit two's-complement reduction
  where the code uses `struct.unpack`;
* IEEE-754 floats are never computed with by the decoding claims, so a
  4-byte float is kept as its raw little-endian 32-bit pattern (a `Nat`).
-/

/-- Outcome of a Python buffer operation: either a value together with the
bytes remaining in the (mutated) buffer, or an exception name together with
the buffer contents at the moment the exception was raised. -/
inductive PResult (α : Type) where
  | ok : α → List Nat → PResult α
  | err : String → List Nat → PResult α
deriving Repr, DecidableEq

/-- A Python computation over a mutable front-popped byte buffer. -/
abbrev PM (α : Type) : Type := List Nat → PResult α

def PM.pure (a : α) : PM α := fun buf => .ok a buf

def PM.bind (m : PM α) (f : α → PM β) : PM β := fun buf =>
  match m buf with
  | .ok a rest => f a rest
  | .err e rest => .err e rest

instance : Monad PM where
  pure := PM.pure
  bind := PM.bind

/-- Raise a Python exception, leaving the buffer as it currently stands. -/
def PM.throw (e : String) : PM α := fun buf => .err e buf

@[simp] theorem PM.bind_eq (m : PM α) (f : α → PM β) (buf : List Nat) :
    (m >>= f) buf = match m buf with
      | .ok a rest => f a rest
      | .err e rest => .err e rest := rfl

@[simp] theorem PM.pure_eq (a : α) (buf : List Nat) :
    (Pure.pure a : PM α) buf = .ok a buf := rfl

@[simp] theorem PM.pure_apply (a : α) (buf : List Nat) :
    PM.pure a buf = .ok a buf := rfl

@[simp] theorem PM.throw_eq (e : String) (buf : List Nat) :
    (PM.throw e : PM α) buf = .err e buf := rfl

/-! ## packer.py — byte cursor primitives -/

/-- `struct.unpack('<i', …)`: reinterpret a 32-bit value as signed. -/
def toSigned32 (v : Nat) : Int :=
  if v < 2 ^ 31 then (v : Int) else (v : Int) - 2 ^ 32

/-- `packer.unpack_bytes(buffer, n)`: pop `n` bytes from the front.
Raises `IndexError` (before touching the buffer) if `n < 0` or fewer than
`n` bytes remain. -/
def unpack_bytes (n : Int) : PM (List Nat) := fun buffer =>
  if n < 0 ∨ (buffer.length : Int) < n then .err "IndexError" buffer
  else .ok (buffer.take n.toNat) (buffer.drop n.toNat)

/-- `packer.unpack_char(buffer, n)`: pop `n` bytes and return them as the
characters of a string (modelled by their byte values). -/
def unpack_char (n : Int) : PM (List Nat) := fun buffer =>
  if n < 0 ∨ (buffer.length : Int) < n then .err "IndexError" buffer
  else .ok (buffer.take n.toNat) (buffer.drop n.toNat)

/-- `packer.unpack_string(buffer)`: pop characters until a `'\n'` (byte 10)
is popped, returning the string including the newline.  If the buffer runs
out before a newline is seen, the `while` loop falls through and the
function returns Python `None` — with the buffer fully consumed. -/
def unpack_string : PM (Option (List Nat))
  | [] => .ok none []
  | b :: rest =>
    if b = 10 then .ok (some [10]) rest
    else
      match unpack_string rest with
      | .ok (some s) r => .ok (some (b :: s)) r
      | .ok none r => .ok none r
      | .err e r => .err e r

/-- `packer.unpack_int(buffer, n)`: pop `n ∈ [1,4]` bytes, zero-extend to
four bytes, and reinterpret little-endian as a signed 32-bit integer. -/
def unpack_int (n : Int) : PM Int := fun buffer =>
  if n < 1 ∨ 4 < n ∨ (buffer.length : Int) < n then .err "IndexError" buffer
  else
    let k := n.toNat
    let a := buffer.getD 0 0
    let b := if 2 ≤ k then buffer.getD 1 0 else 0
    let c := if 3 ≤ k then buffer.getD 2 0 else 0
    let d := if 4 ≤ k then buffer.getD 3 0 else 0
    .ok (toSigned32 (a + 256 * b + 65536 * c + 16777216 * d)) (buffer.drop k)

/-- `packer.unpack_uint(buffer, n)`: pop `n ∈ [1,4]` bytes, zero-extend to
four bytes, and reinterpret little-endian as an unsigned 32-bit integer. -/
def unpack_uint (n : Int) : PM Int := fun buffer =>
  if n < 1 ∨ 4 < n ∨ (buffer.length : Int) < n then .err "IndexError" buffer
  else
    let k := n.toNat
    let a := buffer.getD 0 0
    let b := if 2 ≤ k then buffer.getD 1 0 else 0
    let c := if 3 ≤ k then buffer.getD 2 0 else 0
    let d := if 4 ≤ k then buffer.getD 3 0 else 0
    .ok ((a + 256 * b + 65536 * c + 16777216 * d : Nat) : Int) (buffer.drop k)

/-- `packer.unpack_float(buffer)`: pop 4 bytes; the IEEE-754 value is kept
as its raw little-endian 32-bit pattern. -/
def unpack_float : PM Nat := fun buffer =>
  if buffer.length < 4 then .err "IndexError" buffer
  else
    .ok (buffer.getD 0 0 + 256 * buffer.getD 1 0 + 65536 * buffer.getD 2 0 +
          16777216 * buffer.getD 3 0) (buffer.drop 4)

example : unpack_string [65] = .ok none [] := by decide
example : unpack_string [65, 10, 7] = .ok (some [65, 10]) [7] := by decide
example : unpack_int 2 [1, 2, 99] = .ok 513 [99] := by decide
example : unpack_int 4 [0, 0, 0, 255] = .ok (-16777216) [] := by decide
example : unpack_uint 4 [0, 0, 0, 255] = .ok 4278190080 [] := by decide
example : unpack_bytes 2 [5] = .err "IndexError" [5] := by decide

/-! ## defines.py — protocol enumerations -/

/-- `defines.ComponentType` (GBF data component type codes). -/
inductive ComponentType where
  | NONE | Frame | comp6D | comp3D | comp1D | comp3DError | Image | Alert
deriving Repr, DecidableEq

/-- `ComponentType(v)`: `none` models the `ValueError` raised on an
unrecognized code. -/
def ComponentType.ofCode (v : Int) : Option ComponentType :=
  if v = 0x0000 then some .NONE
  else if v = 0x0001 then some .Frame
  else if v = 0x0002 then some .comp6D
  else if v = 0x0003 then some .comp3D
  else if v = 0x0004 then some .comp1D
  else if v = 0x0009 then some .comp3DError
  else if v = 0x000A then some .Image
  else if v = 0x0012 then some .Alert
  else none

/-- `defines.FrameType`. -/
inductive FrameTypeT where
  | Dummy | ActiveWireless | Passive | Active | Laser | Illuminated
  | Background | Magnetic
deriving Repr, DecidableEq

def FrameTypeT.ofCode (v : Int) : Option FrameTypeT :=
  if v = 0 then some .Dummy
  else if v = 1 then some .ActiveWireless
  else if v = 2 then some .Passive
  else if v = 3 then some .Active
  else if v = 4 then some .Laser
  else if v = 5 then some .Illuminated
  else if v = 6 then some .Background
  else if v = 7 then some .Magnetic
  else none

/-- `defines.Status3D`. -/
inductive Status3DT where
  | OKAY | Missing | OffAngle | BadFit | OOV | OOV_UsedIn6D
  | PossiblePhantom | Saturated | Saturated_OOV | Stray
deriving Repr, DecidableEq

def Status3DT.ofCode (v : Int) : Option Status3DT :=
  if v = 0x00 then some .OKAY
  else if v = 0x01 then some .Missing
  else if v = 0x02 then some .OffAngle
  else if v = 0x03 then some .BadFit
  else if v = 0x04 then some .OOV
  else if v = 0x05 then some .OOV_UsedIn6D
  else if v = 0x06 then some .PossiblePhantom
  else if v = 0x07 then some .Saturated
  else if v = 0x08 then some .Saturated_OOV
  else if v = 0xFF then some .Stray
  else none

/-- `defines.SystemAlertType`. -/
inductive SystemAlertTypeT where
  | Fault | Alert | Event
deriving Repr, DecidableEq

def SystemAlertTypeT.ofCode (v : Int) : Option SystemAlertTypeT :=
  if v = 0 then some .Fault
  else if v = 1 then some .Alert
  else if v = 2 then some .Event
  else none

/-- `defines.FaultCode` (values 1–10), kept as its validated code. -/
def FaultCodeT.ofCode (v : Int) : Option Int :=
  if 1 ≤ v ∧ v ≤ 10 then some v else none

/-- `defines.AlertCode` (values 1–15 and 17). -/
def AlertCodeT.ofCode (v : Int) : Option Int :=
  if (1 ≤ v ∧ v ≤ 15) ∨ v = 17 then some v else none

/-- `defines.EventCode` (values 1–6). -/
def EventCodeT.ofCode (v : Int) : Option Int :=
  if 1 ≤ v ∧ v ≤ 6 then some v else none

/-! ## NDDataTypes.py — value types (floats kept as raw 32-bit patterns) -/

/-- `NDDataTypes.NDPosition`; `NDPosition()` (no arguments) is the MISSING
position (all coordinates `BAD_FLOAT`). -/
structure NDPositionT where
  missing : Bool
  x : Nat := 0
  y : Nat := 0
  z : Nat := 0
deriving Repr, DecidableEq

/-- `NDPosition()` — the MISSING position. -/
def NDPositionT.missingPos : NDPositionT := ⟨true, 0, 0, 0⟩

/-- `NDDataTypes.NDPose`; `NDPose()` (no arguments) is the MISSING pose. -/
structure NDPoseT where
  missing : Bool
  q0 : Nat := 0
  qx : Nat := 0
  qy : Nat := 0
  qz : Nat := 0
  tx : Nat := 0
  ty : Nat := 0
  tz : Nat := 0
  meas_err : Nat := 0
deriving Repr, DecidableEq

/-- `NDPose()` — the MISSING pose. -/
def NDPoseT.missingPose : NDPoseT := ⟨true, 0, 0, 0, 0, 0, 0, 0, 0⟩

/-! ## gbf.py — General Binary Format component tree and decoder -/

/-- `gbf.Item3D` (status, marker index, optional 3D position). -/
structure Item3DT where
  status : Status3DT
  index : Int
  pos : NDPositionT
deriving Repr, DecidableEq

/-- `gbf.ComponentButton` (button id and 1-byte value). -/
structure ComponentButtonT where
  button_id : Int
  value : Int
deriving Repr, DecidableEq

/-- `gbf.Component1D` (tool handle, button count, buttons). -/
structure Component1DT where
  port_handle : Int
  num_items : Int
  data : List ComponentButtonT
deriving Repr, DecidableEq

/-- `gbf.Component3D` (tool handle, marker count, 3D items). -/
structure Component3DT where
  port_handle : Int
  num_items : Int
  data : List Item3DT
deriving Repr, DecidableEq

/-- `gbf.ItemMarkerError` (marker index, 4-byte error pattern). -/
structure ItemMarkerErrorT where
  index : Int
  error : Nat
deriving Repr, DecidableEq

/-- `gbf.ComponentMarkerError` (tool handle, count, error items). -/
structure ComponentMarkerErrorT where
  port_handle : Int
  num_items : Int
  data : List ItemMarkerErrorT
deriving Repr, DecidableEq

/-- `gbf.Component6D` (tool handle, 2-byte status, optional pose). -/
structure Component6DT where
  port_handle : Int
  status : Int
  pose : NDPoseT
deriving Repr, DecidableEq

/-- The code an Alert component carries, validated per alert type
(`FaultCode` / `AlertCode` / `EventCode`). -/
inductive AlertCodeValue where
  | fault (code : Int)
  | alert (code : Int)
  | event (code : Int)
deriving Repr, DecidableEq

/-- `gbf.ComponentAlert`. -/
structure ComponentAlertT where
  atype : SystemAlertTypeT
  code : AlertCodeValue
deriving Repr, DecidableEq

/-- `gbf.ComponentImage` header fields plus the (optionally parsed) image
bytes. -/
structure ComponentImageT where
  item_type : Int
  sensor : Int
  ftype : FrameTypeT
  frame_index : Int
  frame_number : Int
  trigger_threshold : Nat
  background_threshold : Nat
  exposure : Int
  stride : Int
  image_depth : Int
  image_X : Int
  image_Y : Int
  image_width : Int
  image_height : Int
  meta_data_len : Int
  meta_data : List Nat
  image : Option (List Nat)
deriving Repr, DecidableEq

mutual
/-- `gbf.GeneralBinaryPayload`: version, component count, and the parsed
data components (unknown-type components are not added to `data`). -/
inductive GeneralBinaryPayloadT where
  | mk (version : Int) (num_components : Int) (data : List DataComponentT)

/-- `gbf.DataComponent`: type code, declared size, item format, item count,
and the item list. -/
inductive DataComponentT where
  | mk (ctype : ComponentType) (size : Int) (item_format : Int)
      (item_count : Int) (data : List GBFItem)

/-- One entry of a `DataComponent`'s `data` list (the component-type
specific item classes of gbf.py). -/
inductive GBFItem where
  | frame (f : FrameItemT)
  | c1D (c : Component1DT)
  | c3D (c : Component3DT)
  | c6D (c : Component6DT)
  | image (c : ComponentImageT)
  | alert (c : ComponentAlertT)
  | markerError (c : ComponentMarkerErrorT)

/-- `gbf.FrameItem`: frame header fields plus one nested
`GeneralBinaryPayload`. -/
inductive FrameItemT where
  | mk (ftype : FrameTypeT) (index : Int) (status : Int)
      (frame_number : Int) (timestamp_S : Int) (timestamp_nS : Int)
      (payload : GeneralBinaryPayloadT)
end

def GeneralBinaryPayloadT.version : GeneralBinaryPayloadT → Int
  | .mk v _ _ => v

def GeneralBinaryPayloadT.num_components : GeneralBinaryPayloadT → Int
  | .mk _ n _ => n

def GeneralBinaryPayloadT.data : GeneralBinaryPayloadT → List DataComponentT
  | .mk _ _ d => d

def DataComponentT.ctype : DataComponentT → ComponentType
  | .mk t _ _ _ _ => t

def DataComponentT.size : DataComponentT → Int
  | .mk _ s _ _ _ => s

def DataComponentT.item_format : DataComponentT → Int
  | .mk _ _ f _ _ => f

def DataComponentT.item_count : DataComponentT → Int
  | .mk _ _ _ c _ => c

def DataComponentT.data : DataComponentT → List GBFItem
  | .mk _ _ _ _ d => d

/-- Repeat a parser `n` times (`for _ in range(n)` collecting results). -/
def parseRep (p : PM α) : Nat → PM (List α)
  | 0 => PM.pure []
  | n + 1 => do
    let a ← p
    let as ← parseRep p n
    pure (a :: as)

/-- `Item3D.parse`: status byte, reserved byte, 2-byte index, then a 3-float
position only when the status is not `Missing`. -/
def parseItem3D : PM Item3DT := do
  let status_code ← unpack_int 1
  match Status3DT.ofCode status_code with
  | none => PM.throw "ValueError"
  | some st => do
    let _ ← unpack_int 1
    let idx ← unpack_int 2
    if st ≠ Status3DT.Missing then do
      let x ← unpack_float
      let y ← unpack_float
      let z ← unpack_float
      pure ⟨st, idx, ⟨false, x, y, z⟩⟩
    else
      pure ⟨st, idx, NDPositionT.missingPos⟩

/-- `Component3D.parse`: 2-byte tool handle, 2-byte item count, then that
many `Item3D`s. -/
def parseComponent3D : PM Component3DT := do
  let ph ← unpack_int 2
  let n ← unpack_int 2
  let items ← parseRep parseItem3D n.toNat
  pure ⟨ph, n, items⟩

/-- The button loop of `Component1D.parse`: `ComponentButton(i+1, buffer)`
for `i in range(num_items)`; each button is one byte. -/
def parseButtons (i : Nat) : Nat → PM (List ComponentButtonT)
  | 0 => PM.pure []
  | n + 1 => do
    let v ← unpack_int 1
    let rest ← parseButtons (i + 1) n
    pure (⟨(i : Int), v⟩ :: rest)

/-- `Component1D.parse`: tool handle and button count are read with the
default 2-byte `unpack_int`, then one byte per button. -/
def parseComponent1D : PM Component1DT := do
  let ph ← unpack_int 2
  let n ← unpack_int 2
  let buttons ← parseButtons 1 n.toNat
  pure ⟨ph, n, buttons⟩

/-- `ItemMarkerError.parse`: 2-byte index then one 4-byte float error. -/
def parseItemMarkerError : PM ItemMarkerErrorT := do
  let idx ← unpack_int 2
  let e ← unpack_float
  pure ⟨idx, e⟩

/-- `ComponentMarkerError.parse`. -/
def parseComponentMarkerError : PM ComponentMarkerErrorT := do
  let ph ← unpack_int 2
  let n ← unpack_int 2
  let items ← parseRep parseItemMarkerError n.toNat
  pure ⟨ph, n, items⟩

/-- `Component6D.is_missing`: status bit 8.  The status comes from the
2-byte `unpack_int`, hence lies in `[0, 65535]` and `toNat` is exact. -/
def comp6DIsMissing (status : Int) : Bool :=
  status.toNat &&& 0x0100 = 0x0100

/-- `Component6D.parse`: handle, status, then a 7-float pose and a float
error only when the status does not flag the transform as missing. -/
def parseComponent6D : PM Component6DT := do
  let ph ← unpack_int 2
  let st ← unpack_int 2
  if comp6DIsMissing st then
    pure ⟨ph, st, NDPoseT.missingPose⟩
  else do
    let q0 ← unpack_float
    let qx ← unpack_float
    let qy ← unpack_float
    let qz ← unpack_float
    let tx ← unpack_float
    let ty ← unpack_float
    let tz ← unpack_float
    let ev ← unpack_float
    pure ⟨ph, st, ⟨false, q0, qx, qy, qz, tx, ty, tz, ev⟩⟩

/-- `ComponentAlert.parse`: 1-byte alert type (a `ValueError` on an unknown
type propagates), reserved byte, then a 2-byte code validated against the
enum for that alert type (`ValueError` on an unknown code propagates). -/
def parseComponentAlert : PM ComponentAlertT := do
  let tcode ← unpack_int 1
  match SystemAlertTypeT.ofCode tcode with
  | none => PM.throw "ValueError"
  | some t => do
    let _ ← unpack_int 1
    let c ← unpack_int 2
    match t with
    | .Fault =>
      match FaultCodeT.ofCode c with
      | none => PM.throw "ValueError"
      | some fc => pure ⟨t, .fault fc⟩
    | .Alert =>
      match AlertCodeT.ofCode c with
      | none => PM.throw "ValueError"
      | some ac => pure ⟨t, .alert ac⟩
    | .Event =>
      match EventCodeT.ofCode c with
      | none => PM.throw "ValueError"
      | some ec => pure ⟨t, .event ec⟩

/-- `"  65535\n"` — the only terminator `ComponentImage.parse` tests for:
`s.endswith("  65535\n" or "  255\n" or …)` evaluates the `or` first, so
only the first string is ever checked. -/
def pgmTerminator : List Nat := [32, 32, 54, 53, 53, 51, 53, 10]

/-- The PGM info loop of `ComponentImage.parse`: read newline-terminated
strings until one ends with `"  65535\n"`.  A `None` from `unpack_string`
(buffer exhausted with no newline) crashes on `.endswith`
(`AttributeError`).  Each successful iteration consumes at least one byte,
so the caller's buffer length bounds the iteration count (the fuel). -/
def parsePgmInfo : Nat → PM (List Nat)
  | 0 => PM.throw "RecursionError"
  | f + 1 => do
    let s? ← unpack_string
    match s? with
    | none => PM.throw "AttributeError"
    | some s =>
      if pgmTerminator.isSuffixOf s then
        pure s
      else do
        let rest ← parsePgmInfo f
        pure (s ++ rest)

/-- `ComponentImage.parse`.  In the RAW branch with `image_depth ≤ 8` the
source computes `image_size / (8 / image_depth)` with true division: the
result is a Python `float`, and slicing the bytearray with it raises
(`ZeroDivisionError` when the depth is 0, else `IndexError`/`TypeError`
inside `unpack_bytes`); either way the parse dies, modelled as one raise. -/
def parseComponentImage : PM ComponentImageT := do
  let item_type ← unpack_int 1
  let sensor ← unpack_int 1
  let ftcode ← unpack_int 1
  match FrameTypeT.ofCode ftcode with
  | none => PM.throw "ValueError"
  | some ft => do
    let frame_index ← unpack_int 1
    let frame_number ← unpack_int 4
    let trig ← unpack_float
    let bg ← unpack_float
    let exposure ← unpack_int 2
    let stride ← unpack_int 1
    let depth ← unpack_int 1
    let ix ← unpack_int 2
    let iy ← unpack_int 2
    let iw ← unpack_int 2
    let ih ← unpack_int 2
    let mlen ← unpack_int 4
    let meta ← unpack_char mlen
    let image_size := iw * ih
    if item_type = 0 then
      if depth > 8 then do
        let img ← unpack_bytes (image_size * 2)
        pure ⟨item_type, sensor, ft, frame_index, frame_number, trig, bg,
              exposure, stride, depth, ix, iy, iw, ih, mlen, meta, some img⟩
      else
        PM.throw "TypeError"
    else if item_type = 1 then do
      let hdr? ← unpack_string
      match hdr? with
      | none => PM.throw "AttributeError"
      | some hdr => do
        let info ← fun buf => parsePgmInfo (buf.length + 1) buf
        let img ← unpack_bytes (image_size * 2)
        pure ⟨item_type, sensor, ft, frame_index, frame_number, trig, bg,
              exposure, stride, depth, ix, iy, iw, ih, mlen, meta,
              some (hdr ++ info ++ img)⟩
    else
      pure ⟨item_type, sensor, ft, frame_index, frame_number, trig, bg,
            exposure, stride, depth, ix, iy, iw, ih, mlen, meta, none⟩

mutual
/-- `GeneralBinaryPayload.parse`: 2-byte version, 2-byte component count,
then that many `DataComponent`s; components whose type came back `NONE`
are not added to the payload's data list.  The fuel argument bounds the
`FrameItem → GeneralBinaryPayload` nesting depth and decreases on every
recursive call. -/
def parseGeneralBinaryPayload : Nat → PM GeneralBinaryPayloadT
  | 0 => PM.throw "RecursionError"
  | f + 1 => do
    let version ← unpack_int 2
    let num ← unpack_int 2
    let cs ← parseComponents f num.toNat
    pure ⟨version, num, cs.filter (fun c => c.ctype ≠ ComponentType.NONE)⟩

/-- The component loop of `GeneralBinaryPayload.parse` (a zero-iteration
loop consumes nothing and always succeeds). -/
def parseComponents : Nat → Nat → PM (List DataComponentT)
  | _, 0 => PM.pure []
  | 0, _ + 1 => PM.throw "RecursionError"
  | f + 1, n + 1 => do
    let c ← parseDataComponent f
    let cs ← parseComponents f n
    pure (c :: cs)

/-- `DataComponent.parse`: 2-byte type code; on an unrecognized code the
`ValueError` is caught, the 4-byte declared size is read and `size − 6`
bytes are skipped (6 = type + size already read), and the component comes
back with type `NONE`; on a recognized code the declared size, item format
and item count are read and `item_count` items are decoded. -/
def parseDataComponent : Nat → PM DataComponentT
  | 0 => PM.throw "RecursionError"
  | f + 1 => do
    let tcode ← unpack_int 2
    match ComponentType.ofCode tcode with
    | none => do
      let size ← unpack_int 4
      let _ ← unpack_bytes (size - 6)
      pure ⟨ComponentType.NONE, size, 0, 0, []⟩
    | some t => do
      let size ← unpack_int 4
      let fmt ← unpack_int 2
      let cnt ← unpack_int 4
      let items ← parseItems f t cnt.toNat
      pure ⟨t, size, fmt, cnt, items⟩

/-- The item loop of `DataComponent.parse`: one type-specific item per
iteration.  A `NONE`-typed (recognized code 0) component matches no branch,
so the loop adds nothing and consumes nothing. -/
def parseItems : Nat → ComponentType → Nat → PM (List GBFItem)
  | _, .NONE, _ => PM.pure []
  | _, _, 0 => PM.pure []
  | 0, _, _ + 1 => PM.throw "RecursionError"
  | f + 1, t, n + 1 => do
    let item ← (match t with
      | .Frame => do let x ← parseFrameItem f; pure (GBFItem.frame x)
      | .comp1D => do let x ← parseComponent1D; pure (GBFItem.c1D x)
      | .comp3D => do let x ← parseComponent3D; pure (GBFItem.c3D x)
      | .comp6D => do let x ← parseComponent6D; pure (GBFItem.c6D x)
      | .Image => do let x ← parseComponentImage; pure (GBFItem.image x)
      | .Alert => do let x ← parseComponentAlert; pure (GBFItem.alert x)
      | .comp3DError => do
          let x ← parseComponentMarkerError; pure (GBFItem.markerError x)
      | .NONE => PM.throw "unreachable" : PM GBFItem)
    let items ← parseItems f t n
    pure (item :: items)

/-- `FrameItem.parse`: frame header then one nested
`GeneralBinaryPayload`. -/
def parseFrameItem : Nat → PM FrameItemT
  | 0 => PM.throw "RecursionError"
  | f + 1 => do
    let ftcode ← unpack_int 1
    match FrameTypeT.ofCode ftcode with
    | none => PM.throw "ValueError"
    | some ft => do
      let idx ← unpack_int 1
      let st ← unpack_int 2
      let fn ← unpack_int 4
      let ts ← unpack_int 4
      let tns ← unpack_int 4
      let payload ← parseGeneralBinaryPayload f
      pure ⟨ft, idx, st, fn, ts, tns, payload⟩
end

/-! ## bx.py — legacy option-bitmask binary reply decoder -/

/-- `bx.ReplyOption` bit values. -/
def ReplyOption.Transformation : Nat := 0x0001
def ReplyOption.ToolAndMarkerInfo : Nat := 0x0002
def ReplyOption.StrayActiveMarker : Nat := 0x0004
def ReplyOption.ToolMarkers : Nat := 0x0008
def ReplyOption.AllTransforms : Nat := 0x0800
def ReplyOption.StrayPassive : Nat := 0x1000
def ReplyOption.StrayPassiveExtended : Nat := 0x2000

/-- `BXComponent.is_option`: `(options & option) > 0`. -/
def isOption (options bit : Nat) : Bool := 0 < options &&& bit

/-- `BXPortHandle.is_status(HandleStatus.Disabled)`: handle-status bit 4.
The status byte comes from a 1-byte read, so it lies in `[0, 255]`. -/
def bxDisabled (hs : Int) : Bool := hs.toNat &&& 4 = 4

/-- `BXPortHandle.is_status(HandleStatus.Missing)`: handle-status bit 2. -/
def bxMissing (hs : Int) : Bool := hs.toNat &&& 2 = 2

/-- `bx.BXToolAndMarkerInformation`: 1-byte tool info and twenty 4-bit
marker codes. -/
structure BXToolAndMarkerInformationT where
  handle : Int
  tool_info : Int
  data : List Nat
deriving Repr, DecidableEq

/-- The marker-nibble list built by `BXToolAndMarkerInformation.parse`:
for `b in range(10)` append `marker_info[-b-1] & 0x0F` then
`marker_info[-b-1] >> 4 & 0x0F`. -/
def markerNibbles (mi : List Nat) : List Nat :=
  (List.range 10).flatMap fun b =>
    [mi.getD (9 - b) 0 &&& 0x0F, (mi.getD (9 - b) 0 >>> 4) &&& 0x0F]

/-- `BXToolAndMarkerInformation.parse` (only called when option 0x0002 is
set, and it re-checks the option itself). -/
def parseBXToolAndMarkerInformation (handle : Int) (options : Nat) :
    PM BXToolAndMarkerInformationT :=
  if isOption options ReplyOption.ToolAndMarkerInfo then do
    let ti ← unpack_uint 1
    let mi ← unpack_bytes 10
    pure ⟨handle, ti, markerNibbles mi⟩
  else
    PM.pure ⟨handle, 0, []⟩

/-- One entry of `BXStrayActiveMarker.data`: either a parsed position or —
when the position is absent — the `NDPosition` *class object* that the
source appends by mistake (`self.add_data(NDPosition)`, no parentheses). -/
inductive StrayActiveEntry where
  | pos (p : NDPositionT)
  | classRef
deriving Repr, DecidableEq

/-- `bx.BXStrayActiveMarker`. -/
structure BXStrayActiveMarkerT where
  status : Int
  data : List StrayActiveEntry
deriving Repr, DecidableEq

/-- `BXStrayActiveMarker.parse`: 1-byte status; the 3-float position is
present when the marker is valid (status 0x01), or out of volume (0x08)
with `AllTransforms` (0x0800) requested. -/
def parseBXStrayActiveMarker (options : Nat) : PM BXStrayActiveMarkerT :=
  if isOption options ReplyOption.StrayActiveMarker then do
    let st ← unpack_uint 1
    if st = 0x01 ∨ (st = 0x08 ∧ isOption options ReplyOption.AllTransforms) then do
      let tx ← unpack_float
      let ty ← unpack_float
      let tz ← unpack_float
      pure ⟨st, [.pos ⟨false, tx, ty, tz⟩]⟩
    else
      pure ⟨st, [.classRef]⟩
  else
    PM.pure ⟨0x02, []⟩

/-- `bx.ToolMarker`: 3D position plus OKAY/OOV status. -/
structure ToolMarkerT where
  position : NDPositionT
  status : Status3DT
deriving Repr, DecidableEq

/-- `bx.BXToolMarkers`. -/
structure BXToolMarkersT where
  handle : Int
  num_markers : Int
  data : List ToolMarkerT
deriving Repr, DecidableEq

/-- The marker loop shared by `BXToolMarkers.parse` and
`BXStrayPassiveMarkers.parse`: for marker `m`, three floats, then the
out-of-volume bit `oov_bytes[-(m/8 + 1)] >> (m % 8) & 1`
(an out-of-range negative index raises `IndexError`). -/
def parseToolMarkerLoop (oov : List Nat) : Nat → Nat → PM (List ToolMarkerT)
  | _, 0 => PM.pure []
  | m, k + 1 => do
    let tx ← unpack_float
    let ty ← unpack_float
    let tz ← unpack_float
    if oov.length < m / 8 + 1 then
      PM.throw "IndexError"
    else do
      let b := oov.getD (oov.length - (m / 8 + 1)) 0
      let bit := (b >>> (m % 8)) &&& 1
      let rest ← parseToolMarkerLoop oov (m + 1) k
      pure (⟨⟨false, tx, ty, tz⟩, if bit = 1 then .OOV else .OKAY⟩ :: rest)

/-- `BXToolMarkers.parse`: 1-byte marker count, `⌈count/8⌉` out-of-volume
bytes, then the marker loop. -/
def parseBXToolMarkers (handle : Int) (options : Nat) : PM BXToolMarkersT :=
  if isOption options ReplyOption.ToolMarkers then do
    let n ← unpack_int 1
    let oov ← unpack_bytes ((n.toNat + 7) / 8 : Nat)
    let items ← parseToolMarkerLoop oov 0 n.toNat
    pure ⟨handle, n, items⟩
  else
    PM.pure ⟨handle, 0, []⟩

/-- `bx.StrayPassiveMarker`: a `ToolMarker` plus the 4-bit extended marker
status (0 until reply option 0x2000 fills it in). -/
structure StrayPassiveMarkerT where
  position : NDPositionT
  status : Status3DT
  extended_marker_status : Nat
deriving Repr, DecidableEq

/-- `bx.BXStrayPassiveMarkers`. -/
structure BXStrayPassiveMarkersT where
  num_markers : Int
  data : List StrayPassiveMarkerT
deriving Repr, DecidableEq

/-- The stray-marker loop of `BXStrayPassiveMarkers.parse` (same layout as
the tool-marker loop, extended status initialised to 0). -/
def parseStrayPassiveLoop (oov : List Nat) : Nat → Nat → PM (List StrayPassiveMarkerT)
  | _, 0 => PM.pure []
  | m, k + 1 => do
    let tx ← unpack_float
    let ty ← unpack_float
    let tz ← unpack_float
    if oov.length < m / 8 + 1 then
      PM.throw "IndexError"
    else do
      let b := oov.getD (oov.length - (m / 8 + 1)) 0
      let bit := (b >>> (m % 8)) &&& 1
      let rest ← parseStrayPassiveLoop oov (m + 1) k
      pure (⟨⟨false, tx, ty, tz⟩, if bit = 1 then .OOV else .OKAY, 0⟩ :: rest)

/-- `self.data[i].extended_marker_status = v`: raises `IndexError` when `i`
is out of range. -/
def setExtStatus (data : List StrayPassiveMarkerT) (i : Nat) (v : Nat) :
    PM (List StrayPassiveMarkerT) := fun buf =>
  if i < data.length then
    .ok (data.set i
      { data.getD i ⟨NDPositionT.missingPos, .OKAY, 0⟩ with
          extended_marker_status := v }) buf
  else
    .err "IndexError" buf

/-- The extended-status loop of `BXStrayPassiveMarkers.parse`: for
`b in range(⌈n/2⌉)` read one byte and write nibbles into
`data[2b]` and `data[2b+1]`. -/
def parseExtStatusLoop : Nat → Nat → List StrayPassiveMarkerT →
    PM (List StrayPassiveMarkerT)
  | 0, _, data => PM.pure data
  | c + 1, b, data => do
    let msb ← unpack_uint 1
    let d1 ← setExtStatus data (2 * b) ((msb.toNat >>> 4) &&& 0x0F)
    let d2 ← setExtStatus d1 (2 * b + 1) (msb.toNat &&& 0x0F)
    parseExtStatusLoop c (b + 1) d2

/-- `BXStrayPassiveMarkers.parse`. -/
def parseBXStrayPassiveMarkers (options : Nat) : PM BXStrayPassiveMarkersT :=
  if isOption options ReplyOption.StrayPassive then do
    let n ← unpack_int 1
    if n > 0 then do
      let oov ← unpack_bytes ((n.toNat + 7) / 8 : Nat)
      let data ← parseStrayPassiveLoop oov 0 n.toNat
      if isOption options ReplyOption.StrayPassiveExtended then do
        let data2 ← parseExtStatusLoop ((n.toNat + 1) / 2) 0 data
        pure ⟨n, data2⟩
      else
        pure ⟨n, data⟩
    else
      pure ⟨n, []⟩
  else
    PM.pure ⟨0, []⟩

/-- `bx.BXPortHandle`: one handle's decoded fields (`none` = Python
`None`, i.e. the field was never parsed). -/
structure BXPortHandleT where
  handle : Int
  handle_status : Int
  port_status : Option Int
  frame_number : Option Int
  tool_marker_info : Option BXToolAndMarkerInformationT
  stray_active_marker : Option BXStrayActiveMarkerT
  markers : Option BXToolMarkersT
  data : List NDPoseT
deriving Repr, DecidableEq

/-- The tail of `BXPortHandle.parse` after the Transformation block: the
ToolAndMarkerInfo, StrayActiveMarker and ToolMarkers blocks, each parsed
only when its option bit is requested. -/
def parseBXPortHandleRest (handle hs : Int) (ps fn : Option Int)
    (dat : List NDPoseT) (options : Nat) : PM BXPortHandleT := do
  let tmi ← (if isOption options ReplyOption.ToolAndMarkerInfo then do
      let x ← parseBXToolAndMarkerInformation handle options
      pure (some x)
    else pure none : PM (Option BXToolAndMarkerInformationT))
  let sam ← (if isOption options ReplyOption.StrayActiveMarker then do
      let x ← parseBXStrayActiveMarker options
      pure (some x)
    else pure none : PM (Option BXStrayActiveMarkerT))
  let mks ← (if isOption options ReplyOption.ToolMarkers then do
      let x ← parseBXToolMarkers handle options
      pure (some x)
    else pure none : PM (Option BXToolMarkersT))
  pure ⟨handle, hs, ps, fn, tmi, sam, mks, dat⟩

/-- `BXPortHandle.parse`: 1-byte handle id, 1-byte handle status, then the
option-driven blocks.  The early `return` for a Disabled handle sits
*inside* the `if self.is_option(ReplyOption.Transformation)` block. -/
def parseBXPortHandle (options : Nat) : PM BXPortHandleT := do
  let handle ← unpack_int 1
  let hs ← unpack_int 1
  if isOption options ReplyOption.Transformation then
    if bxDisabled hs then
      -- "if the handle status is 'disabled', nothing is reported" — return
      pure ⟨handle, hs, none, none, none, none, none, []⟩
    else do
      let pose ← (if ¬ bxMissing hs then do
          let q0 ← unpack_float
          let qx ← unpack_float
          let qy ← unpack_float
          let qz ← unpack_float
          let tx ← unpack_float
          let ty ← unpack_float
          let tz ← unpack_float
          let ev ← unpack_float
          pure (⟨false, q0, qx, qy, qz, tx, ty, tz, ev⟩ : NDPoseT)
        else pure NDPoseT.missingPose : PM NDPoseT)
      let ps ← unpack_int 4
      let fn ← unpack_uint 4
      parseBXPortHandleRest handle hs (some ps) (some fn) [pose] options
  else
    parseBXPortHandleRest handle hs none none [] options

/-- `bx.BX`: the whole reply. -/
structure BXT where
  num_handles : Int
  data : List BXPortHandleT
  stray_passive : Option BXStrayPassiveMarkersT
  status : Int
deriving Repr, DecidableEq

/-- `BX.parse`: 1-byte handle count, per-handle data, the optional stray
passive block (option 0x1000), then the 2-byte system status. -/
def parseBX (options : Nat) : PM BXT := do
  let nh ← unpack_int 1
  let handles ← parseRep (parseBXPortHandle options) nh.toNat
  let sp ← (if isOption options ReplyOption.StrayPassive then do
      let x ← parseBXStrayPassiveMarkers options
      pure (some x)
    else pure none : PM (Option BXStrayPassiveMarkersT))
  let st ← unpack_uint 2
  pure ⟨nh, handles, sp, st⟩

/-! ## NDCAPITracker.receive_response — frame reader -/

/-- A complete reply frame as returned by
`NDCAPITracker.receive_response`: an ASCII reply (ends in CR) or a binary
reply (the full accumulated byte run including start sequence, header,
payload and any trailing checksum). -/
inductive RRFrame where
  | ascii (s : List Nat)
  | binary (b : List Nat)
deriving Repr, DecidableEq

/-- The accumulation loop of `NDCAPITracker.receive_response` over an
incoming byte stream.  One stream byte is consumed per iteration (a read
timeout retries, so the only way to fail is for the stream to end
mid-frame, modelled as `none`).  The fuel only bounds the number of loop
iterations; since every iteration consumes at least one stream byte, any
fuel exceeding the stream length is equivalent to the unbounded loop. -/
def receive_loop : Nat → List Nat → List Nat → Option (RRFrame × List Nat)
  | 0, _, _ => none
  | _ + 1, [], _ => none
  | f + 1, b :: stream, buffer =>
    let buf := buffer ++ [b]
    if buf.length < 2 then receive_loop f stream buf
    else if buf.getLast? = some 13 then
      -- ASCII message: ends at the carriage return
      some (.ascii buf, stream)
    else if buf.getD 1 0 = 0xA5 ∧ buf.getD 0 0 = 0xC4 then
      -- standard binary 0xA5C4: u16 length, u16 header CRC,
      -- `length` payload bytes, u16 data CRC
      if stream.length < 4 then none
      else
        let hdr := stream.take 4
        let dlen := 256 * hdr.getD 1 0 + hdr.getD 0 0
        let s1 := stream.drop 4
        if s1.length < dlen + 2 then none
        else some (.binary (buf ++ hdr ++ s1.take (dlen + 2)), s1.drop (dlen + 2))
    else if buf.getD 1 0 = 0xA5 ∧ buf.getD 0 0 = 0xC8 then
      -- extended binary 0xA5C8: u32 length then `length` payload bytes
      if stream.length < 4 then none
      else
        let hdr := stream.take 4
        let dlen := 16777216 * hdr.getD 3 0 + 65536 * hdr.getD 2 0 +
          256 * hdr.getD 1 0 + hdr.getD 0 0
        let s1 := stream.drop 4
        if s1.length < dlen then none
        else some (.binary (buf ++ hdr ++ s1.take dlen), s1.drop dlen)
    else if buf.getD 1 0 = 0xB5 ∧ buf.getD 0 0 = 0xD4 then
      -- stream wrapper 0xB5D4: u16 id length, id bytes, u16 header CRC;
      -- then clear the buffer and restart accumulation from empty
      if stream.length < 2 then none
      else
        let idLen := 256 * stream.getD 1 0 + stream.getD 0 0
        let s1 := stream.drop 2
        if s1.length < idLen + 2 then none
        else receive_loop f (s1.drop (idLen + 2)) []
    else
      receive_loop f stream buf

/-- `NDCAPITracker.receive_response`: run the accumulation loop from an
empty buffer (with enough fuel for the whole stream). -/
def receive_response (stream : List Nat) : Option (RRFrame × List Nat) :=
  receive_loop (stream.length + 1) stream []

/-! ## NDTracker / NDDataSource / NDVega — session state machine -/

/-- An action another thread may take between iterations of the `_track`
polling loop (`pause_tracking` / `unpause_tracking`), or no action. -/
inductive EnvAct where
  | pause
  | unpause
  | idle
deriving Repr, DecidableEq

/-- The flags `NDTracker._track` consults: `_is_tracking`, `_is_paused`. -/
structure TrackFlags where
  tracking : Bool
  paused : Bool
deriving Repr, DecidableEq

/-- Apply one environment action to the flags. -/
def applyAct : EnvAct → TrackFlags → TrackFlags
  | .pause, s => { s with paused := true }
  | .unpause, s => { s with paused := false }
  | .idle, s => s

/-- Result of running the `_track` loop against a finite schedule of
environment actions: either the `while` loop's condition went false and
the thread function returned (`exited`), or the schedule ran out with the
loop still live (`running`).  Both carry the flags and the number of
frames fetched. -/
inductive TrackOutcome where
  | exited (flags : TrackFlags) (fetches : Nat)
  | running (flags : TrackFlags) (fetches : Nat)
deriving Repr, DecidableEq

/-- The `while self.is_tracking() and not self.is_paused():` loop of
`NDTracker._track`: check the condition; if it holds, fetch one frame,
let the environment act once, and re-check; if it fails, the loop — and
with it the tracking thread — exits. -/
def trackLoop : List EnvAct → TrackFlags → Nat → TrackOutcome
  | acts, s, fetched =>
    if s.tracking ∧ ¬ s.paused then
      match acts with
      | [] => .running s fetched
      | a :: rest => trackLoop rest (applyAct a s) (fetched + 1)
    else
      .exited s fetched

/-- `NDTracker._track`: sets `_is_tracking = True`, then runs the polling
loop. -/
def track (acts : List EnvAct) (s : TrackFlags) : TrackOutcome :=
  trackLoop acts { s with tracking := true } 0

/-- The session flags of `NDDataSource`/`NDTracker` relevant to
`stop_tracking`. -/
structure SessionState where
  is_connected : Bool
  is_init : Bool
  is_tracking : Bool
  is_streaming : Bool
  is_recording : Bool
  is_paused : Bool
deriving Repr, DecidableEq

/-- Externally visible effects of `NDTracker.stop_tracking` and the
helpers it calls. -/
inductive SessEff where
  | recordingStopped
  | streamingStopped
  | threadJoined
  | deviceStopCommand
  | trackingStopEvent
deriving Repr, DecidableEq

/-- `NDTracker.stop_tracking` (`devOk` is whether the device-specific
`_do_stop_tracking` succeeds; on failure the `NDError` propagates after
the flags were already cleared, so the returned `Bool` is the Python
outcome: `true` = returned `True`, `false` = raised). -/
def stop_tracking (devOk : Bool) (s : SessionState) :
    SessionState × List SessEff × Bool :=
  if ¬ s.is_tracking then (s, [], true)
  else
    let (s1, e1) :=
      if s.is_recording then
        ({ s with is_recording := false }, [SessEff.recordingStopped])
      else (s, [])
    let (s2, e2) :=
      if s1.is_streaming then
        ({ s1 with is_streaming := false }, [SessEff.streamingStopped])
      else (s1, [])
    let s3 := { s2 with is_paused := false, is_tracking := false }
    if devOk then
      (s3, e1 ++ e2 ++ [SessEff.threadJoined, SessEff.deviceStopCommand,
        SessEff.trackingStopEvent], true)
    else
      (s3, e1 ++ e2 ++ [SessEff.threadJoined, SessEff.deviceStopCommand], false)

/-- The connection/initialization flags of `NDDataSource`. -/
structure DSState where
  is_connected : Bool
  is_init : Bool
deriving Repr, DecidableEq

/-- Outcome of a Python call: returned normally, or raised the named
error. -/
inductive PyOutcome where
  | ok
  | error (kind : String)
deriving Repr, DecidableEq

/-- Success/failure of each step of `NDCAPITracker._do_initialize`
(each `false` means the corresponding call raised `NDError` or the INIT
reply reported an error). -/
structure InitSteps where
  initCmdSendOk : Bool
  initReplyOk : Bool
  freeOk : Bool
  loadWiredOk : Bool
  loadWirelessOk : Bool
  initDevicesOk : Bool
  enableOk : Bool
deriving Repr, DecidableEq

/-- `NDCAPITracker._do_initialize`: the steps run in order and the first
failure aborts the whole call. -/
def do_init_steps (st : InitSteps) : Bool :=
  st.initCmdSendOk && st.initReplyOk && st.freeOk && st.loadWiredOk &&
    st.loadWirelessOk && st.initDevicesOk && st.enableOk

/-- `NDDataSource.initialize`: requires `is_connected`
(`assert_is_connected` raises `USE_ERROR`); runs `_do_initialize`,
re-raising its `NDError`; only on success sets `_is_initialized`. -/
def init_data_source (st : InitSteps) (s : DSState) : DSState × PyOutcome :=
  if ¬ s.is_connected then (s, .error "USE_ERROR")
  else if do_init_steps st then ({ s with is_init := true }, .ok)
  else (s, .error "NDError")

/-- The session fields consulted by `NDTracker.start_recording` and
`NDVega._do_recording_start` (`rec6D_open` is `_recording6D.is_open`,
whether the 6D recording sink has been opened). -/
structure RecSession where
  is_connected : Bool
  is_tracking : Bool
  is_recording : Bool
  num_tools : Nat
  rec6D_open : Bool
deriving Repr, DecidableEq

/-- `NDVega._do_recording_start`: with no tracked tools it logs an error
and returns `False` without opening the data file; otherwise it opens the
6D data file and returns `True`. -/
def do_recording_start (s : RecSession) : RecSession × Bool :=
  if s.num_tools = 0 then (s, false)
  else ({ s with rec6D_open := true }, true)

/-- `NDTracker.start_recording`: `assert_is_tracking` raises `USE_ERROR`
unless connected and tracking; then `_do_recording_start()` is invoked
with its return value discarded, `_is_recording` is set and the call
returns `True`. -/
def start_recording (s : RecSession) : RecSession × PyOutcome :=
  if ¬ (s.is_connected ∧ s.is_tracking) then (s, .error "USE_ERROR")
  else
    let (s1, _result_ignored) := do_recording_start s
    ({ s1 with is_recording := true }, .ok)

/-! ## Helper lemmas about the byte-cursor primitives -/

theorem toSigned32_of_lt {v : Nat} (h : v < 2 ^ 31) : toSigned32 v = (v : Int) := by
  have : v < 2147483648 := by omega
  simp [toSigned32, this]

theorem getD_lt_256 {buf : List Nat} (h : ∀ b ∈ buf, b < 256) (i : Nat) :
    buf.getD i 0 < 256 := by
  by_cases hi : i < buf.length
  · rw [List.getD_eq_getElem buf 0 hi]
    exact h _ (List.getElem_mem hi)
  · rw [List.getD_eq_default buf 0 (by omega)]
    omega

theorem unpack_int_cons_1 (a : Nat) (l : List Nat) :
    unpack_int 1 (a :: l) = .ok (toSigned32 a) l := by
  have hc : ¬((1 : Int) < 1 ∨ 4 < (1 : Int) ∨ (((a :: l).length : Int) < 1)) := by
    simp
  simp [unpack_int, hc]

theorem unpack_int_cons_2 (a b : Nat) (l : List Nat) :
    unpack_int 2 (a :: b :: l) = .ok (toSigned32 (a + 256 * b)) l := by
  have hc : ¬((2 : Int) < 1 ∨ 4 < (2 : Int) ∨ (((a :: b :: l).length : Int) < 2)) := by
    simp
    omega
  simp [unpack_int, hc]
  omega

theorem unpack_int_cons_4 (a b c d : Nat) (l : List Nat) :
    unpack_int 4 (a :: b :: c :: d :: l) =
      .ok (toSigned32 (a + 256 * b + 65536 * c + 16777216 * d)) l := by
  have hc : ¬((4 : Int) < 1 ∨ 4 < (4 : Int) ∨
      (((a :: b :: c :: d :: l).length : Int) < 4)) := by
    simp
    omega
  simp [unpack_int, hc]
  omega

theorem unpack_uint_cons_1 (a : Nat) (l : List Nat) :
    unpack_uint 1 (a :: l) = .ok (a : Int) l := by
  have hc : ¬((1 : Int) < 1 ∨ 4 < (1 : Int) ∨ (((a :: l).length : Int) < 1)) := by
    simp
  simp [unpack_uint, hc]

theorem unpack_uint_cons_2 (a b : Nat) (l : List Nat) :
    unpack_uint 2 (a :: b :: l) = .ok ((a + 256 * b : Nat) : Int) l := by
  have hc : ¬((2 : Int) < 1 ∨ 4 < (2 : Int) ∨ (((a :: b :: l).length : Int) < 2)) := by
    simp
    omega
  simp [unpack_uint, hc]
  omega

theorem unpack_uint_cons_4 (a b c d : Nat) (l : List Nat) :
    unpack_uint 4 (a :: b :: c :: d :: l) =
      .ok ((a + 256 * b + 65536 * c + 16777216 * d : Nat) : Int) l := by
  have hc : ¬((4 : Int) < 1 ∨ 4 < (4 : Int) ∨
      (((a :: b :: c :: d :: l).length : Int) < 4)) := by
    simp
    omega
  simp [unpack_uint, hc]
  omega

theorem unpack_float_cons (a b c d : Nat) (l : List Nat) :
    unpack_float (a :: b :: c :: d :: l) =
      .ok (a + 256 * b + 65536 * c + 16777216 * d) l := by
  simp [unpack_float]

theorem unpack_bytes_exact {l : List Nat} {n : Int} (r : List Nat)
    (h : (l.length : Int) = n) : unpack_bytes n (l ++ r) = .ok l r := by
  have hn : n.toNat = l.length := by omega
  have hc : ¬(n < 0 ∨ (((l ++ r).length : Int) < n)) := by
    simp
    omega
  simp [unpack_bytes, hc, hn, List.take_left, List.drop_left]
  omega

theorem unpack_string_no_newline {buf : List Nat} (h : ∀ b ∈ buf, b ≠ 10) :
    unpack_string buf = .ok none [] := by
  induction buf with
  | nil => rfl
  | cons b rest ih =>
    have hb : b ≠ 10 := h b (by simp)
    have hr : ∀ x ∈ rest, x ≠ 10 := fun x hx => h x (by simp [hx])
    simp [unpack_string, hb, ih hr]

/-- C2 (counterexample): on the newline-free buffer `[65]`, the
newline-terminated read `unpack_string` does not fail with an underrun
error at all — it returns Python `None` (`ok none`) with the buffer fully
consumed (`[]` remains, though `[65]` was nonempty), contradicting the
claimed all-or-nothing `UnderrunError` behaviour. -/
theorem C2_counterexample :
    unpack_string [65] = .ok none [] ∧ [65] ≠ ([] : List Nat) := by
  constructor
  · decide
  · decide

/-- C2 (amended): every fixed-width read (`unpack_bytes`, `unpack_char`,
`unpack_int`, `unpack_uint`, `unpack_float`) on a buffer holding fewer
bytes than the read requires fails with an `IndexError` raised before any
byte is consumed, leaving the buffer unchanged; but the newline-terminated
`unpack_string` on a buffer containing no newline does not fail that way:
it consumes the entire buffer and returns `None`. -/
theorem C2_underrun_all_or_nothing :
    (∀ (buf : List Nat) (n : Int), (buf.length : Int) < n →
      unpack_bytes n buf = .err "IndexError" buf) ∧
    (∀ (buf : List Nat) (n : Int), (buf.length : Int) < n →
      unpack_char n buf = .err "IndexError" buf) ∧
    (∀ (buf : List Nat) (n : Int), 1 ≤ n → (buf.length : Int) < n →
      unpack_int n buf = .err "IndexError" buf) ∧
    (∀ (buf : List Nat) (n : Int), 1 ≤ n → (buf.length : Int) < n →
      unpack_uint n buf = .err "IndexError" buf) ∧
    (∀ buf : List Nat, buf.length < 4 →
      unpack_float buf = .err "IndexError" buf) ∧
    (∀ buf : List Nat, (∀ b ∈ buf, b ≠ 10) →
      unpack_string buf = .ok none []) := by
  refine ⟨?_, ?_, ?_, ?_, ?_, ?_⟩
  · intro buf n h
    simp only [unpack_bytes]
    rw [if_pos (Or.inr h)]
  · intro buf n h
    simp only [unpack_char]
    rw [if_pos (Or.inr h)]
  · intro buf n h1 h
    simp only [unpack_int]
    rw [if_pos (Or.inr (Or.inr h))]
  · intro buf n h1 h
    simp only [unpack_uint]
    rw [if_pos (Or.inr (Or.inr h))]
  · intro buf h
    simp only [unpack_float]
    rw [if_pos h]
  · intro buf h
    exact unpack_string_no_newline h

/-- Witness for C2: concrete underruns for each read and a concrete
newline-free `unpack_string`. -/
theorem C2_underrun_witness :
    unpack_bytes 3 [1, 2] = .err "IndexError" [1, 2] ∧
    unpack_char 1 [] = .err "IndexError" [] ∧
    unpack_int 4 [9, 9] = .err "IndexError" [9, 9] ∧
    unpack_uint 2 [7] = .err "IndexError" [7] ∧
    unpack_float [1, 2, 3] = .err "IndexError" [1, 2, 3] ∧
    unpack_string [65, 66] = .ok none [] :=
  ⟨C2_underrun_all_or_nothing.1 [1, 2] 3 (by decide),
   C2_underrun_all_or_nothing.2.1 [] 1 (by decide),
   C2_underrun_all_or_nothing.2.2.1 [9, 9] 4 (by decide) (by decide),
   C2_underrun_all_or_nothing.2.2.2.1 [7] 2 (by decide) (by decide),
   C2_underrun_all_or_nothing.2.2.2.2.1 [1, 2, 3] (by decide),
   C2_underrun_all_or_nothing.2.2.2.2.2 [65, 66] (by decide)⟩

/-- C9: for widths `n ∈ {1,2,3}` on a byte buffer holding at least `n`
bytes, the signed read `unpack_int` returns exactly the same value as the
unsigned read `unpack_uint` (the missing high bytes are zero-filled, so
the sign bit can never be set), and that value is never negative; only the
full 4-byte read can produce a negative value. -/
theorem C9_unpack_int_eq_uint_below_4 :
    ∀ (buf : List Nat) (n : Int), (n = 1 ∨ n = 2 ∨ n = 3) →
      (∀ b ∈ buf, b < 256) → n ≤ (buf.length : Int) →
      unpack_int n buf = unpack_uint n buf ∧
      (∀ v r, unpack_int n buf = .ok v r → 0 ≤ v) := by
  intro buf n hn hbytes hlen
  have ha := getD_lt_256 hbytes 0
  have hb := getD_lt_256 hbytes 1
  have hcc := getD_lt_256 hbytes 2
  have hcond : ¬(n < 1 ∨ 4 < n ∨ (buf.length : Int) < n) := by
    rcases hn with h | h | h <;> subst h <;> omega
  have hk3 : n.toNat ≤ 3 := by rcases hn with h | h | h <;> subst h <;> decide
  have hd0 : (if 4 ≤ n.toNat then buf.getD 3 0 else 0) = 0 := by
    rw [if_neg (by omega)]
  have hval :
      buf.getD 0 0 + 256 * (if 2 ≤ n.toNat then buf.getD 1 0 else 0) +
        65536 * (if 3 ≤ n.toNat then buf.getD 2 0 else 0) +
        16777216 * (if 4 ≤ n.toNat then buf.getD 3 0 else 0) < 2 ^ 31 := by
    rw [hd0]
    have h1 : (if 2 ≤ n.toNat then buf.getD 1 0 else 0) < 256 := by
      split
      · exact hb
      · omega
    have h2 : (if 3 ≤ n.toNat then buf.getD 2 0 else 0) < 256 := by
      split
      · exact hcc
      · omega
    have hpow : (2 : Nat) ^ 31 = 2147483648 := by norm_num
    rw [hpow]
    omega
  constructor
  · simp only [unpack_int, unpack_uint, if_neg hcond]
    rw [toSigned32_of_lt hval]
  · intro v r h
    simp only [unpack_int, if_neg hcond] at h
    have hv : v = toSigned32 (buf.getD 0 0 +
        256 * (if 2 ≤ n.toNat then buf.getD 1 0 else 0) +
        65536 * (if 3 ≤ n.toNat then buf.getD 2 0 else 0) +
        16777216 * (if 4 ≤ n.toNat then buf.getD 3 0 else 0)) := by
      cases h
      rfl
    rw [hv, toSigned32_of_lt hval]
    positivity

/-- Witness for C9: the 3-byte read of `[0xFF, 0xFF, 0xFF]` gives the same
non-negative value through both the signed and the unsigned reader. -/
theorem C9_unpack_witness :
    unpack_int 3 [255, 255, 255] = unpack_uint 3 [255, 255, 255] ∧
    (∀ v r, unpack_int 3 [255, 255, 255] = .ok v r → 0 ≤ v) :=
  C9_unpack_int_eq_uint_below_4 [255, 255, 255] 3 (by decide)
    (by decide) (by decide)

/-- C1: for a GBF `DataComponent` whose 2-byte type code is unrecognized
and whose declared 4-byte size is `S`, the decoder consumes exactly `S − 6`
further bytes after the type and size fields, emits a `NONE`-typed
component, and leaves the cursor right at the next component: a payload
declaring two components whose first is such an unknown component decodes
its second component exactly as it would decode from the remaining bytes
alone (resynchronization). -/
theorem C1_unknown_component_resync
    (f : Nat) (t0 t1 s0 s1 s2 s3 v0 v1 : Nat) (skip rest rem : List Nat)
    (c : DataComponentT) (S : Int)
    (hT : ComponentType.ofCode (toSigned32 (t0 + 256 * t1)) = none)
    (hS : S = toSigned32 (s0 + 256 * s1 + 65536 * s2 + 16777216 * s3))
    (h6 : 6 ≤ S)
    (hskip : (skip.length : Int) = S - 6)
    (hc : parseDataComponent f rest = .ok c rem)
    (hcny : c.ctype ≠ ComponentType.NONE) :
    parseDataComponent (f + 1)
        (t0 :: t1 :: s0 :: s1 :: s2 :: s3 :: (skip ++ rest)) =
      .ok (.mk ComponentType.NONE S 0 0 []) rest ∧
    parseGeneralBinaryPayload (f + 3)
        (v0 :: v1 :: 2 :: 0 ::
          t0 :: t1 :: s0 :: s1 :: s2 :: s3 :: (skip ++ rest)) =
      .ok (.mk (toSigned32 (v0 + 256 * v1)) 2 [c]) rem := by
  have hskip' : unpack_bytes (S - 6) (skip ++ rest) = .ok skip rest :=
    unpack_bytes_exact rest (by omega)
  have h1 : parseDataComponent (f + 1)
      (t0 :: t1 :: s0 :: s1 :: s2 :: s3 :: (skip ++ rest)) =
      .ok (.mk ComponentType.NONE S 0 0 []) rest := by
    simp only [parseDataComponent, PM.bind_eq, unpack_int_cons_2, hT,
      unpack_int_cons_4, ← hS, hskip', PM.pure_eq]
  refine ⟨h1, ?_⟩
  have h2 : toSigned32 (2 + 256 * 0) = 2 := by decide
  simp only [parseGeneralBinaryPayload, PM.bind_eq, unpack_int_cons_2, h2]
  norm_num
  simp only [parseComponents, PM.bind_eq, h1, hc, PM.pure_eq, PM.pure_apply]
  obtain ⟨ct, sz, fmt, cnt, dat⟩ := c
  have hct : ct ≠ ComponentType.NONE := hcny
  simp [List.filter_cons, DataComponentT.ctype, hct]

/-- Witness for C1: an unknown type code 0x0005 with declared size 8 skips
its 2 payload bytes, and the following 3D component (declared size 12,
zero items) decodes correctly from a 2-component payload. -/
theorem C1_unknown_component_witness :
    parseDataComponent 3
        [5, 0, 8, 0, 0, 0, 170, 187, 3, 0, 12, 0, 0, 0, 0, 0, 0, 0, 0, 0] =
      .ok (.mk ComponentType.NONE 8 0 0 [])
        [3, 0, 12, 0, 0, 0, 0, 0, 0, 0, 0, 0] ∧
    parseGeneralBinaryPayload 5
        [1, 0, 2, 0, 5, 0, 8, 0, 0, 0, 170, 187,
          3, 0, 12, 0, 0, 0, 0, 0, 0, 0, 0, 0] =
      .ok (.mk 1 2 [.mk ComponentType.comp3D 12 0 0 []]) [] :=
  C1_unknown_component_resync 2 5 0 8 0 0 0 1 0 [170, 187]
    [3, 0, 12, 0, 0, 0, 0, 0, 0, 0, 0, 0] []
    (.mk ComponentType.comp3D 12 0 0 []) 8
    (by decide) (by decide) (by decide) (by decide) rfl (by decide)

/-- C6: when the frame reader's first two accumulated bytes are the
little-endian stream-wrapper magic 0xB5D4 (bytes 0xD4, 0xB5), it reads the
2-byte ID length `n = l0 + 256·l1`, the `n` ID bytes and the 2-byte header
checksum, discards every accumulated wrapper byte and restarts
accumulation from an empty buffer: receiving on the wrapped stream is the
same as receiving on the bytes that follow the wrapper, so the wrapper is
never returned as a frame and the following frame is framed as usual. -/
theorem C6_stream_wrapper_discarded
    (f : Nat) (l0 l1 c0 c1 : Nat) (idb rest : List Nat)
    (hid : idb.length = 256 * l1 + l0) :
    receive_loop (f + 2)
        (0xD4 :: 0xB5 :: l0 :: l1 :: (idb ++ c0 :: c1 :: rest)) [] =
      receive_loop f rest [] := by
  have hdrop : (idb ++ c0 :: c1 :: rest).drop (256 * l1 + l0 + 2) = rest := by
    rw [← hid, List.drop_append]
    rfl
  simp only [receive_loop]
  norm_num
  rw [hdrop]
  rw [if_neg (by omega), if_neg (by omega)]

/-- Witness for C6: a concrete wrapper (ID length 1) followed by the ASCII
frame `[66, 13]`; after discarding the wrapper the reader returns exactly
that frame. -/
theorem C6_stream_wrapper_witness :
    receive_loop 6 [212, 181, 1, 0, 65, 0, 0, 66, 13] [] =
      receive_loop 4 [66, 13] [] ∧
    receive_loop 4 [66, 13] [] = some (.ascii [66, 13], []) :=
  ⟨C6_stream_wrapper_discarded 4 1 0 0 0 [65] [66, 13] (by decide),
   by decide⟩

/-- C3 (counterexample): with only the ToolAndMarkerInfo option (0x0002)
requested — Transformation (0x0001) not among the requested options — a
handle whose status byte is Disabled (4) does *not* end the per-handle
decode: on the two-byte record `[7, 4]` the decoder goes on to read the
tool-information block and dies with an `IndexError` after consuming both
bytes, instead of returning the handle and leaving the cursor at the next
handle as the claim requires. -/
theorem C3_counterexample :
    parseBXPortHandle 2 [7, 4] = .err "IndexError" [] := by decide

/-- C3 (amended): the early return for a Disabled handle applies only when
the Transformation option (0x0001) is among the requested options: in that
case the decoder reads no per-handle fields beyond the 1-byte handle id
and 1-byte status.  (When Transformation is not requested, the other
requested blocks are still parsed even for Disabled handles, as the
counterexample shows.) -/
theorem C3_disabled_early_return
    (options : Nat) (h hs : Nat) (rest : List Nat)
    (hopt : isOption options ReplyOption.Transformation = true)
    (hdis : hs &&& 4 = 4) (hh : h < 256) (hhs : hs < 256) :
    parseBXPortHandle options (h :: hs :: rest) =
      .ok ⟨(h : Int), (hs : Int), none, none, none, none, none, []⟩ rest := by
  have hd : bxDisabled ((hs : Nat) : Int) = true := by
    simp [bxDisabled, Int.toNat_natCast, hdis]
  simp only [parseBXPortHandle, PM.bind_eq, unpack_int_cons_1,
    toSigned32_of_lt (show h < 2 ^ 31 by omega),
    toSigned32_of_lt (show hs < 2 ^ 31 by omega), hopt, hd]
  simp

/-- Witness for C3 (amended): Transformation requested, Disabled handle:
exactly the two header bytes are consumed. -/
theorem C3_disabled_witness :
    parseBXPortHandle 1 [2, 4, 9] =
      .ok ⟨2, 4, none, none, none, none, none, []⟩ [9] :=
  C3_disabled_early_return 1 2 4 [9] (by decide) (by decide)
    (by decide) (by decide)

theorem unpack_float_append (l r : List Nat) (h : 4 ≤ l.length) :
    ∃ v, unpack_float (l ++ r) = .ok v (l.drop 4 ++ r) := by
  simp only [unpack_float]
  rw [if_neg (by simp; omega), List.drop_append_of_le_length h]
  exact ⟨_, rfl⟩

theorem setExtStatus_lt (data : List StrayPassiveMarkerT) (i : Nat) (v : Nat)
    (buf : List Nat) (h : i < data.length) :
    ∃ d, setExtStatus data i v buf = .ok d buf ∧ d.length = data.length := by
  refine ⟨data.set i
    { data.getD i ⟨NDPositionT.missingPos, .OKAY, 0⟩ with
        extended_marker_status := v }, ?_, ?_⟩
  · rw [setExtStatus, if_pos h]
  · simp

theorem setExtStatus_ge {data : List StrayPassiveMarkerT} {i : Nat} (v : Nat)
    (buf : List Nat) (h : data.length ≤ i) :
    setExtStatus data i v buf = .err "IndexError" buf := by
  rw [setExtStatus, if_neg (by omega)]

/-- The stray-passive marker loop succeeds, consuming 12 bytes per marker
and producing one `StrayPassiveMarkerT` per marker, whenever the buffer
carries the floats and the out-of-volume byte run covers all indices. -/
theorem parseStrayPassiveLoop_ok (oov : List Nat) :
    ∀ (k m : Nat) (floats rest : List Nat),
      floats.length = 12 * k →
      m + k ≤ 8 * oov.length →
      ∃ data : List StrayPassiveMarkerT,
        parseStrayPassiveLoop oov m k (floats ++ rest) = .ok data rest ∧
        data.length = k := by
  intro k
  induction k with
  | zero =>
    intro m floats rest hf hm
    have : floats = [] := List.eq_nil_of_length_eq_zero (by omega)
    subst this
    exact ⟨[], by simp [parseStrayPassiveLoop], rfl⟩
  | succ k ih =>
    intro m floats rest hf hm
    obtain ⟨v1, hv1⟩ := unpack_float_append floats rest (by omega)
    obtain ⟨v2, hv2⟩ := unpack_float_append (floats.drop 4) rest (by simp; omega)
    obtain ⟨v3, hv3⟩ :=
      unpack_float_append ((floats.drop 4).drop 4) rest (by simp; omega)
    obtain ⟨data, hdata, hlen⟩ := ih (m + 1) (((floats.drop 4).drop 4).drop 4)
      rest (by simp; omega) (by omega)
    refine ⟨⟨⟨false, v1, v2, v3⟩,
      if (oov.getD (oov.length - (m / 8 + 1)) 0 >>> (m % 8)) &&& 1 = 1
        then .OOV else .OKAY, 0⟩ :: data, ?_, by simp [hlen]⟩
    simp only [parseStrayPassiveLoop, PM.bind_eq, hv1, hv2, hv3]
    rw [if_neg (by omega)]
    simp only [PM.bind_eq, hdata, PM.pure_eq, PM.pure_apply]

/-- The extended-status loop dies with `IndexError` whenever the marker
list it writes into has odd length `2b + 2c + 1` (its final iteration
writes index `2b + 2c + 1`, one past the end), with all its status bytes
consumed. -/
theorem parseExtStatusLoop_overrun :
    ∀ (c b : Nat) (data : List StrayPassiveMarkerT) (bytes buf : List Nat),
      data.length = 2 * b + 2 * c + 1 → bytes.length = c + 1 →
      parseExtStatusLoop (c + 1) b data (bytes ++ buf) =
        .err "IndexError" buf := by
  intro c
  induction c with
  | zero =>
    intro b data bytes buf hd hb
    obtain ⟨x, rfl⟩ : ∃ x, bytes = [x] := by
      cases bytes with
      | nil => simp at hb
      | cons x t =>
        cases t with
        | nil => exact ⟨x, rfl⟩
        | cons y t2 => simp at hb
    obtain ⟨d1, hd1, hl1⟩ := setExtStatus_lt data (2 * b)
      (x >>> 4 &&& 15) buf (by omega)
    have e2 : setExtStatus d1 (2 * b + 1) (x &&& 15) buf =
        .err "IndexError" buf :=
      setExtStatus_ge _ _ (by omega)
    simp only [parseExtStatusLoop, PM.bind_eq, List.cons_append,
      List.nil_append, unpack_uint_cons_1, Int.toNat_natCast, hd1, e2]
  | succ c ih =>
    intro b data bytes buf hd hb
    obtain ⟨x, bytes', rfl⟩ : ∃ x t, bytes = x :: t := by
      cases bytes with
      | nil => simp at hb
      | cons x t => exact ⟨x, t, rfl⟩
    have hb' : bytes'.length = c + 1 := by simpa using hb
    obtain ⟨d1, hd1, hl1⟩ := setExtStatus_lt data (2 * b)
      (x >>> 4 &&& 15) (bytes' ++ buf) (by omega)
    obtain ⟨d2, hd2, hl2⟩ := setExtStatus_lt d1 (2 * b + 1)
      (x &&& 15) (bytes' ++ buf) (by omega)
    have hrec := ih (b + 1) d2 bytes' buf (by omega) hb'
    conv_lhs => rw [parseExtStatusLoop]
    simp only [PM.bind_eq, List.cons_append, unpack_uint_cons_1,
      Int.toNat_natCast, hd1, hd2, hrec]

/-- C10: with both StrayPassive (0x1000) and StrayPassiveExtended (0x2000)
requested and an odd stray-marker count `n = 2k + 1 ≥ 1`, the
extended-status pass of `BXStrayPassiveMarkers.parse` runs `⌈n/2⌉ = k+1`
iterations writing marker indices `2b` and `2b+1`; its last iteration
writes index `n`, one past the end of the `n`-element marker list, so
decoding a well-formed frame fails with an `IndexError` instead of
producing a result. -/
theorem C10_stray_passive_odd_overrun
    (options : Nat) (k : Nat) (n : Nat) (oov floats ext rest : List Nat)
    (h1000 : isOption options ReplyOption.StrayPassive = true)
    (h2000 : isOption options ReplyOption.StrayPassiveExtended = true)
    (hn : n = 2 * k + 1) (hn255 : n < 256)
    (hoov : oov.length = (n + 7) / 8)
    (hfl : floats.length = 12 * n)
    (hext : ext.length = k + 1) :
    parseBXStrayPassiveMarkers options
        (n :: (oov ++ (floats ++ (ext ++ rest)))) = .err "IndexError" rest := by
  have htS : toSigned32 n = (n : Int) := toSigned32_of_lt (by omega)
  have hpos : (n : Int) > 0 := by omega
  have hub : unpack_bytes (((n : Nat) + 7) / 8 : Nat)
      (oov ++ (floats ++ (ext ++ rest))) = .ok oov (floats ++ (ext ++ rest)) :=
    unpack_bytes_exact _ (by rw [hoov])
  obtain ⟨data, hdata, hdlen⟩ := parseStrayPassiveLoop_ok oov n 0 floats
    (ext ++ rest) (by omega) (by omega)
  have hext' : parseExtStatusLoop (k + 1) 0 data (ext ++ rest) =
      .err "IndexError" rest :=
    parseExtStatusLoop_overrun k 0 data ext rest (by omega) hext
  have hcnt : ((n : Nat) + 1) / 2 = k + 1 := by omega
  simp only [parseBXStrayPassiveMarkers, h1000, if_true, PM.bind_eq,
    unpack_int_cons_1, htS, Int.toNat_natCast, hpos, hub, hdata, h2000,
    hcnt, hext']

/-- Witness for C10: a single stray marker (`n = 1`) with both options
set: 1 count byte, 1 out-of-volume byte, 12 position bytes and 1
extended-status byte; the decode raises `IndexError`. -/
theorem C10_stray_passive_witness :
    parseBXStrayPassiveMarkers 0x3000
        [1, 0, 0, 0, 0, 0, 0, 0, 0, 0, 0, 0, 0, 0, 9] = .err "IndexError" [] :=
  C10_stray_passive_odd_overrun 0x3000 0 1 [0]
    [0, 0, 0, 0, 0, 0, 0, 0, 0, 0, 0, 0] [9] []
    (by decide) (by decide) (by decide) (by decide) (by decide) (by decide)
    (by decide)

/-- C4 (counterexample): starting the polling loop with Paused clear and
then pausing: the loop performs one fetch, sees `is_tracking() and not
is_paused()` go false, and *exits* — the thread function returns — while
Tracking is still true, contradicting the claim that pause never
terminates the tracking thread's loop while Tracking remains true. -/
theorem C4_counterexample :
    track [.pause] ⟨false, false⟩ = .exited ⟨true, true⟩ 1 := by decide

/-- C4 (amended): while Tracking, setting Paused causes the polling loop
to exit at its next condition check — the tracking thread terminates even
though Tracking remains true — performing no further fetches, and later
clearing Paused (any schedule of further pause/unpause actions) cannot
resume fetching on that thread. -/
theorem C4_pause_exits_loop (acts : List EnvAct) (s : TrackFlags) (n : Nat)
    (ht : s.tracking = true) (hp : s.paused = true) :
    trackLoop acts s n = .exited s n := by
  rw [trackLoop.eq_def]
  simp [ht, hp]

/-- Witness for C4 (amended): a paused, tracking loop exits immediately
with no further fetches even though an unpause is scheduled. -/
theorem C4_pause_witness :
    trackLoop [.unpause] ⟨true, true⟩ 5 = .exited ⟨true, true⟩ 5 :=
  C4_pause_exits_loop [.unpause] ⟨true, true⟩ 5 rfl rfl

/-- C5 (counterexample): while Tracking with zero tracked tools,
`start_recording()` does not fail with a `UseError`: `_do_recording_start`
declines (returns `False`) without opening the data file, but
`start_recording` discards that return value, sets the Recording flag and
reports success. -/
theorem C5_counterexample :
    start_recording ⟨true, true, false, 0, false⟩ =
      (⟨true, true, true, 0, false⟩, .ok) := by decide

/-- C5 (amended): `start_recording()` fails with `UseError` (leaving the
state unchanged) unless the session is Connected and Tracking; when
Tracking, it always sets the Recording flag and returns success — with at
least one tracked tool it also opens the 6D recording sink, but with zero
tracked tools the sink is not opened (and no error is raised). -/
theorem C5_start_recording_cases (s : RecSession) :
    (¬ (s.is_connected = true ∧ s.is_tracking = true) →
      start_recording s = (s, .error "USE_ERROR")) ∧
    (s.is_connected = true → s.is_tracking = true → s.num_tools = 0 →
      start_recording s = ({ s with is_recording := true }, .ok)) ∧
    (s.is_connected = true → s.is_tracking = true → 0 < s.num_tools →
      start_recording s =
        ({ s with is_recording := true, rec6D_open := true }, .ok)) := by
  refine ⟨?_, ?_, ?_⟩
  · intro h
    rw [start_recording, if_pos (by simpa using h)]
  · intro hc ht h0
    rw [start_recording, if_neg (by simp [hc, ht])]
    simp [do_recording_start, h0]
  · intro hc ht h0
    rw [start_recording, if_neg (by simp [hc, ht])]
    simp [do_recording_start, Nat.pos_iff_ne_zero.mp h0]

/-- Witness for C5 (amended): not tracking ⇒ `UseError`; tracking with a
tool ⇒ Recording set and sink opened. -/
theorem C5_start_recording_witness :
    start_recording ⟨true, false, false, 1, false⟩ =
      (⟨true, false, false, 1, false⟩, .error "USE_ERROR") ∧
    start_recording ⟨true, true, false, 2, false⟩ =
      (⟨true, true, true, 2, true⟩, .ok) :=
  ⟨(C5_start_recording_cases ⟨true, false, false, 1, false⟩).1 (by simp),
   (C5_start_recording_cases ⟨true, true, false, 2, false⟩).2.2 rfl rfl
     (by decide)⟩

/-- C7: `initialize()` requires the session to be Connected (else
`USE_ERROR` with the state untouched); if any step of `_do_initialize`
fails, the call fails with an error and the state is returned unchanged —
still Connected, and not Initialized if it was not; the Initialized flag
is set exactly when every step succeeds. -/
theorem C7_init_connected_guard (st : InitSteps) (s : DSState) :
    (s.is_connected = false →
      init_data_source st s = (s, .error "USE_ERROR")) ∧
    (s.is_connected = true → do_init_steps st = false →
      init_data_source st s = (s, .error "NDError")) ∧
    (s.is_connected = true → do_init_steps st = true →
      init_data_source st s = ({ s with is_init := true }, .ok)) := by
  refine ⟨?_, ?_, ?_⟩
  · intro h
    rw [init_data_source, if_pos (by simp [h])]
  · intro hc hf
    rw [init_data_source, if_neg (by simp [hc]), if_neg (by simp [hf])]
  · intro hc ht
    rw [init_data_source, if_neg (by simp [hc]), if_pos (by simp [ht])]

/-- Witness for C7: idle session ⇒ `USE_ERROR`; connected session whose
port-enable step fails ⇒ error with state still Connected, not
Initialized; all steps succeed ⇒ Initialized. -/
theorem C7_init_witness :
    init_data_source ⟨true, true, true, true, true, true, true⟩
        ⟨false, false⟩ = (⟨false, false⟩, .error "USE_ERROR") ∧
    init_data_source ⟨true, true, true, true, true, true, false⟩
        ⟨true, false⟩ = (⟨true, false⟩, .error "NDError") ∧
    init_data_source ⟨true, true, true, true, true, true, true⟩
        ⟨true, false⟩ = (⟨true, true⟩, .ok) :=
  ⟨(C7_init_connected_guard ⟨true, true, true, true, true, true, true⟩
      ⟨false, false⟩).1 rfl,
   (C7_init_connected_guard ⟨true, true, true, true, true, true, false⟩
      ⟨true, false⟩).2.1 rfl (by decide),
   (C7_init_connected_guard ⟨true, true, true, true, true, true, true⟩
      ⟨true, false⟩).2.2 rfl (by decide)⟩

theorem stopped_not_tracking (ok : Bool) (s : SessionState) :
    (stop_tracking ok s).1.is_tracking = false := by
  by_cases h : s.is_tracking
  · simp [stop_tracking, h]
    split_ifs <;> simp
  · simp [stop_tracking, h]

/-- C8: `stop_tracking()` is idempotent: after any call (from any session
state, whether or not the device stop command then succeeds), a second
call finds Tracking already false, performs no effect — no recording or
streaming teardown, no thread join, no device command, no event — leaves
the state exactly as the first call left it, and returns success
immediately. -/
theorem C8_stop_tracking_idempotent (ok1 ok2 : Bool) (s : SessionState) :
    stop_tracking ok2 (stop_tracking ok1 s).1 =
      ((stop_tracking ok1 s).1, [], true) := by
  have h := stopped_not_tracking ok1 s
  rw [stop_tracking, if_pos (by simp [h])]
